import Mathlib

/-!
Shallow embedding of the admission-control and resilience layer of the
pull-request code-review service:

* the token-bucket rate limiter (`src/rate_limiter.py`),
* the output-size calculator and the sliding-window token budget manager
  (`src/token_calculator.py`),
* the Bedrock invocation retry loop (`src/bedrock_handler.py`),
* the per-file analysis loop with its circuit breaker and inter-file delays
  (`src/main.py`).

Modelling conventions:

* Python `float` values are modelled as exact rationals (`ℚ`); the single use
  of `math.log10` is modelled as the real base-10 logarithm, so the one branch
  that uses it lives in `ℝ`.
* Python `int(x)` truncates toward zero; this is `pyInt` / `pyIntR` below.
* `time.time()` results are passed in explicitly as `now : ℚ` arguments.
* Mutation of `self` becomes explicit state passing: a method that mutates
  returns the updated state alongside its Python return value.
* External I/O (the AWS Service Quotas round trip, the Bedrock endpoint) is
  represented by oracle arguments describing the outcome of each call.
-/

namespace PRReviewer

/-- Python `int(x)` applied to a rational: truncation toward zero. -/
def pyInt (q : ℚ) : ℤ := if 0 ≤ q then ⌊q⌋ else ⌈q⌉

/-- Python `int(x)` applied to a real: truncation toward zero. -/
noncomputable def pyIntR (x : ℝ) : ℤ := if 0 ≤ x then ⌊x⌋ else ⌈x⌉

theorem pyInt_mono {p q : ℚ} (h : p ≤ q) : pyInt p ≤ pyInt q := by
  unfold pyInt
  split_ifs with hp hq hq
  · exact Int.floor_le_floor h
  · exact absurd (hp.trans h) hq
  · exact le_trans (Int.ceil_le.mpr (by exact_mod_cast le_of_not_le hp)) (Int.floor_nonneg.mpr hq)
  · exact Int.ceil_le_ceil h

theorem pyIntR_mono {p q : ℝ} (h : p ≤ q) : pyIntR p ≤ pyIntR q := by
  unfold pyIntR
  split_ifs with hp hq hq
  · exact Int.floor_le_floor h
  · exact absurd (hp.trans h) hq
  · exact le_trans (Int.ceil_le.mpr (by exact_mod_cast le_of_not_le hp)) (Int.floor_nonneg.mpr hq)
  · exact Int.ceil_le_ceil h

/-! ## Rate limiter (`src/rate_limiter.py`, class `BedrockRateLimiter`) -/

/-- The mutable state of a `BedrockRateLimiter`.  `tokens` starts as the
integer `burst_capacity`, only ever has integers added (`int(tokens_to_add)`)
or `1` subtracted, so it is an integer throughout; timestamps are rationals. -/
structure BedrockRateLimiter where
  requests_per_minute : ℤ
  burst_capacity : ℤ
  tokens : ℤ
  last_refill_time : ℚ
deriving Repr, DecidableEq

namespace BedrockRateLimiter

/-- The body of `__init__` when it actually runs (fresh instance, no
`_initialized` attribute yet): full bucket, refill clock set to now. -/
def init (requests_per_minute burst_capacity : ℤ) (now : ℚ) : BedrockRateLimiter :=
  { requests_per_minute := requests_per_minute
    burst_capacity := burst_capacity
    tokens := burst_capacity
    last_refill_time := now }

/-- `BedrockRateLimiter(requests_per_minute, burst_capacity)`: because of the
singleton `__new__` plus the `_initialized` early return in `__init__`,
constructing while `_instance` already exists returns that instance unchanged
(the arguments are ignored); only when no instance exists is a fresh limiter
initialized. -/
def construct (existing : Option BedrockRateLimiter) (requests_per_minute burst_capacity : ℤ)
    (now : ℚ) : BedrockRateLimiter :=
  match existing with
  | some l => l
  | none => init requests_per_minute burst_capacity now

/-- `_refill_tokens`: add `int(time_elapsed * requests_per_minute / 60)` tokens
(clamped to `burst_capacity`) and update `last_refill_time`, but only when at
least one whole token worth of time has passed; otherwise leave the state
untouched. -/
def refill_tokens (l : BedrockRateLimiter) (current_time : ℚ) : BedrockRateLimiter :=
  let time_elapsed := current_time - l.last_refill_time
  let tokens_to_add : ℚ := time_elapsed * ((l.requests_per_minute : ℚ) / 60)
  if 1 ≤ tokens_to_add then
    { l with
      tokens := min l.burst_capacity (l.tokens + pyInt tokens_to_add)
      last_refill_time := current_time }
  else l

/-- One iteration of the `acquire` loop body under `_token_lock`: refill, then
take a token if at least one is available.  Returns the updated state and
whether a token was acquired (`True` return of `acquire`). -/
def acquireStep (l : BedrockRateLimiter) (now : ℚ) : BedrockRateLimiter × Bool :=
  let l1 := refill_tokens l now
  if 1 ≤ l1.tokens then ({ l1 with tokens := l1.tokens - 1 }, true) else (l1, false)

/-- The read-only snapshot returned by `get_status`. -/
structure Status where
  available_tokens : ℤ
  max_capacity : ℤ
  requests_per_minute : ℤ
  last_refill_time : ℚ
deriving Repr, DecidableEq

/-- `get_status`: refill under the lock, then report the snapshot.  The
refilled state is returned alongside because `_refill_tokens` mutates `self`. -/
def get_status (l : BedrockRateLimiter) (now : ℚ) : Status × BedrockRateLimiter :=
  let l1 := refill_tokens l now
  ({ available_tokens := l1.tokens
     max_capacity := l1.burst_capacity
     requests_per_minute := l1.requests_per_minute
     last_refill_time := l1.last_refill_time }, l1)

end BedrockRateLimiter

/-- `configure_global_rate_limiter`: rebinds the module-level global to
`BedrockRateLimiter(requests_per_minute, burst_capacity)`.  `existing` is the
class-level singleton `_instance` (which the constructor consults). -/
def configure_global_rate_limiter (existing : Option BedrockRateLimiter)
    (requests_per_minute burst_capacity : ℤ) (now : ℚ) : BedrockRateLimiter :=
  BedrockRateLimiter.construct existing requests_per_minute burst_capacity now

/-- States of the bucket reachable from construction by any sequence of
`acquire`-loop iterations, `_refill_tokens` calls and `get_status` calls, at
arbitrary observation times.  Construction is with a nonnegative burst
capacity (the configuration surface always supplies one). -/
inductive RateLimiterReachable : BedrockRateLimiter → Prop
  | init (rpm bc : ℤ) (now : ℚ) (hbc : 0 ≤ bc) :
      RateLimiterReachable (BedrockRateLimiter.init rpm bc now)
  | refill {l : BedrockRateLimiter} (now : ℚ) :
      RateLimiterReachable l → RateLimiterReachable (l.refill_tokens now)
  | acquire {l : BedrockRateLimiter} (now : ℚ) :
      RateLimiterReachable l → RateLimiterReachable (l.acquireStep now).1
  | status {l : BedrockRateLimiter} (now : ℚ) :
      RateLimiterReachable l → RateLimiterReachable (l.get_status now).2

theorem refill_tokens_burst_capacity (l : BedrockRateLimiter) (now : ℚ) :
    (l.refill_tokens now).burst_capacity = l.burst_capacity := by
  simp only [BedrockRateLimiter.refill_tokens]
  split <;> rfl

theorem pyInt_one_le {q : ℚ} (h : 1 ≤ q) : (1 : ℤ) ≤ pyInt q := by
  unfold pyInt
  rw [if_pos (le_trans zero_le_one h)]
  exact Int.le_floor.mpr (by exact_mod_cast h)

theorem refill_tokens_inv {l : BedrockRateLimiter} (now : ℚ)
    (hcap : 0 ≤ l.burst_capacity) (h0 : 0 ≤ l.tokens) (h1 : l.tokens ≤ l.burst_capacity) :
    0 ≤ (l.refill_tokens now).tokens ∧
      (l.refill_tokens now).tokens ≤ (l.refill_tokens now).burst_capacity := by
  simp only [BedrockRateLimiter.refill_tokens]
  split
  case isTrue h =>
    refine ⟨le_min hcap ?_, min_le_left _ _⟩
    have := pyInt_one_le h
    omega
  case isFalse h => exact ⟨h0, h1⟩

theorem acquireStep_inv {l : BedrockRateLimiter} (now : ℚ)
    (hcap : 0 ≤ l.burst_capacity) (h0 : 0 ≤ l.tokens) (h1 : l.tokens ≤ l.burst_capacity) :
    0 ≤ (l.acquireStep now).1.tokens ∧
      (l.acquireStep now).1.tokens ≤ (l.acquireStep now).1.burst_capacity := by
  have hr := refill_tokens_inv now hcap h0 h1
  simp only [BedrockRateLimiter.acquireStep]
  split
  case isTrue h => exact ⟨by dsimp only; omega, by dsimp only; omega⟩
  case isFalse h => exact hr

theorem acquireStep_burst_capacity (l : BedrockRateLimiter) (now : ℚ) :
    (l.acquireStep now).1.burst_capacity = l.burst_capacity := by
  simp only [BedrockRateLimiter.acquireStep]
  split <;> simp [refill_tokens_burst_capacity]

/-- Claim C8: in every reachable state of the rate limiter's bucket — initial
construction (with nonnegative burst capacity) and after any sequence of
acquire-loop iterations, refills and status calls at arbitrary times —
`tokens` stays within `[0, burst_capacity]`. -/
theorem C8_tokens_within_capacity {l : BedrockRateLimiter}
    (h : RateLimiterReachable l) : 0 ≤ l.tokens ∧ l.tokens ≤ l.burst_capacity := by
  have main : 0 ≤ l.burst_capacity ∧ 0 ≤ l.tokens ∧ l.tokens ≤ l.burst_capacity := by
    induction h with
    | init rpm bc now hbc => exact ⟨hbc, hbc, le_refl _⟩
    | refill now _ ih =>
      have h2 := refill_tokens_inv now ih.1 ih.2.1 ih.2.2
      exact ⟨(refill_tokens_burst_capacity _ now).symm ▸ ih.1, h2.1, h2.2⟩
    | acquire now _ ih =>
      have h2 := acquireStep_inv now ih.1 ih.2.1 ih.2.2
      exact ⟨by rw [acquireStep_burst_capacity]; exact ih.1, h2.1, h2.2⟩
    | status now _ ih =>
      have h2 := refill_tokens_inv now ih.1 ih.2.1 ih.2.2
      exact ⟨(refill_tokens_burst_capacity _ now).symm ▸ ih.1, h2.1, h2.2⟩
  exact main.2

/-- Witness for C8 at a concrete reachable state. -/
theorem C8_tokens_within_capacity_witness :
    0 ≤ ((BedrockRateLimiter.init 50 10 0).acquireStep 1).1.tokens ∧
      ((BedrockRateLimiter.init 50 10 0).acquireStep 1).1.tokens ≤
        ((BedrockRateLimiter.init 50 10 0).acquireStep 1).1.burst_capacity :=
  C8_tokens_within_capacity
    (RateLimiterReachable.acquire 1 (RateLimiterReachable.init 50 10 0 (by norm_num)))

/-- Claim C2, counterexample: a limiter already exists with rate 50 and
capacity 10; `configure_global_rate_limiter(100, 20)` does not replace the
rate or the capacity — the singleton returns the old instance untouched. -/
theorem C2_counterexample :
    (configure_global_rate_limiter (some (BedrockRateLimiter.init 50 10 0)) 100 20 0).requests_per_minute ≠ 100 ∧
    (configure_global_rate_limiter (some (BedrockRateLimiter.init 50 10 0)) 100 20 0).burst_capacity ≠ 20 := by
  decide

/-- Claim C2, amended: `configure_global_rate_limiter` returns an already
existing limiter unchanged (rate, capacity and tokens all retained, nothing
clamped); a fresh limiter with the requested rate and capacity is created
only when no instance exists yet. -/
theorem C2_configure_keeps_existing (existing : Option BedrockRateLimiter)
    (requests_per_minute burst_capacity : ℤ) (now : ℚ) :
    (∀ l, existing = some l →
      configure_global_rate_limiter existing requests_per_minute burst_capacity now = l) ∧
    (existing = none →
      configure_global_rate_limiter existing requests_per_minute burst_capacity now =
        BedrockRateLimiter.init requests_per_minute burst_capacity now) := by
  constructor
  · rintro l rfl; rfl
  · rintro rfl; rfl

/-- Witness for the amended C2. -/
theorem C2_configure_keeps_existing_witness :
    configure_global_rate_limiter (some (BedrockRateLimiter.init 50 10 0)) 100 20 5 =
      BedrockRateLimiter.init 50 10 0 :=
  (C2_configure_keeps_existing (some (BedrockRateLimiter.init 50 10 0)) 100 20 5).1 _ rfl

/-- Claim C5, counterexample: rate 60/min, capacity 10, 5 tokens, last refill
at time 0, observed at time 1/2.  The claim demands `tokens = min 10 (5 + 0.5)
= 5.5` and `last_refill_time = 1/2`; the code leaves both untouched because
less than one whole token has accrued (no fractional accrual). -/
theorem C5_counterexample :
    ((⟨60, 10, 5, 0⟩ : BedrockRateLimiter).refill_tokens (1/2)).tokens = 5 ∧
    ¬ (((((⟨60, 10, 5, 0⟩ : BedrockRateLimiter).refill_tokens (1/2)).tokens : ℚ) =
          min ((10 : ℚ)) (5 + (1/2) * ((60 : ℚ) / 60)) ∧
        ((⟨60, 10, 5, 0⟩ : BedrockRateLimiter).refill_tokens (1/2)).last_refill_time = 1/2)) := by
  have h : (⟨60, 10, 5, 0⟩ : BedrockRateLimiter).refill_tokens (1/2) = ⟨60, 10, 5, 0⟩ := by
    simp only [BedrockRateLimiter.refill_tokens]
    norm_num
  rw [h]
  refine ⟨rfl, ?_⟩
  rintro ⟨-, h2⟩
  norm_num at h2

/-- Claim C5, amended: on each acquire iteration and each status call the
bucket is refilled first, but tokens accrue in whole units only: when
`elapsed * rate/60 ≥ 1` the refill sets
`tokens := min capacity (tokens + ⌊elapsed * rate/60⌋)` and updates
`last_refill_time`; when `elapsed * rate/60 < 1` tokens and `last_refill_time`
are both left unchanged. -/
theorem C5_refill_whole_tokens_only (l : BedrockRateLimiter) (now : ℚ) :
    (1 ≤ (now - l.last_refill_time) * ((l.requests_per_minute : ℚ) / 60) →
      l.refill_tokens now =
        { l with
          tokens := min l.burst_capacity
            (l.tokens + ⌊(now - l.last_refill_time) * ((l.requests_per_minute : ℚ) / 60)⌋)
          last_refill_time := now }) ∧
    ((now - l.last_refill_time) * ((l.requests_per_minute : ℚ) / 60) < 1 →
      l.refill_tokens now = l) ∧
    (l.get_status now).2 = l.refill_tokens now ∧
    (l.acquireStep now).1 =
      (if 1 ≤ (l.refill_tokens now).tokens then
        { l.refill_tokens now with tokens := (l.refill_tokens now).tokens - 1 }
      else l.refill_tokens now) := by
  refine ⟨fun h => ?_, fun h => ?_, rfl, ?_⟩
  · simp only [BedrockRateLimiter.refill_tokens, if_pos h]
    have hfl : pyInt ((now - l.last_refill_time) * ((l.requests_per_minute : ℚ) / 60)) =
        ⌊(now - l.last_refill_time) * ((l.requests_per_minute : ℚ) / 60)⌋ := by
      unfold pyInt
      exact if_pos (le_trans zero_le_one h)
    rw [hfl]
  · simp only [BedrockRateLimiter.refill_tokens, if_neg (not_le.mpr h)]
  · simp only [BedrockRateLimiter.acquireStep]
    rw [apply_ite Prod.fst]

/-- Witness for the amended C5. -/
theorem C5_refill_whole_tokens_only_witness :
    (⟨60, 10, 5, 0⟩ : BedrockRateLimiter).refill_tokens 2 =
      { (⟨60, 10, 5, 0⟩ : BedrockRateLimiter) with
        tokens := min (10 : ℤ) (5 + ⌊((2 : ℚ) - 0) * ((((60 : ℤ) : ℚ)) / 60)⌋)
        last_refill_time := 2 } :=
  (C5_refill_whole_tokens_only ⟨60, 10, 5, 0⟩ 2).1 (by norm_num)

/-! ## Token calculator (`src/token_calculator.py`, class `TokenCalculator`)

String-level helpers first: the Python code counts regex matches; each regex
used is a fixed character class, a fixed literal, or a word-bounded keyword,
so each is embedded as a direct scan over the character list. -/

/-- Characters matched by the character class regex used in
`estimate_input_tokens` (braces, parentheses, semicolon). -/
def isCodeIndicatorChar (c : Char) : Bool :=
  c == '\x7b' || c == '\x7d' || c == '(' || c == ')' || c == ';'

/-- Characters matched by the wider character class regex used for
`code_density` in `calculate_complexity_factor`. -/
def isComplexityCodeChar (c : Char) : Bool :=
  c == '\x7b' || c == '\x7d' || c == '(' || c == ')' || c == ';' || c == ',' ||
  c == '[' || c == ']' || c == '+' || c == '=' || c == '-' || c == '*' ||
  c == '/' || c == '<' || c == '>'

/-- `len(re.findall(pat, text))` for a fixed literal pattern: non-overlapping
left-to-right occurrence count (after a match the scan resumes past it). -/
def countOccurs (pat : List Char) : List Char → ℕ
  | [] => 0
  | c :: rest =>
    if pat.isPrefixOf (c :: rest) then
      1 + countOccurs pat (rest.drop (pat.length - 1))
    else
      countOccurs pat rest
termination_by l => l.length
decreasing_by all_goals simp [List.length_drop] <;> omega

/-- `len(re.findall(r'^M[^M]', content, re.MULTILINE))` for a marker char `M`
(`+` or `-`): a match needs a line start (string start or right after a
newline), the marker, and one following char that is not the marker (a newline
qualifies, so `[^M]` can consume the line terminator).  Matches consume two
chars; the scan resumes after them, tracking whether the next position is a
line start. -/
def countLineStartMatches (marker : Char) : List Char → Bool → ℕ
  | [], _ => 0
  | [_], _ => 0
  | c :: d :: rest, atLineStart =>
    if atLineStart ∧ c = marker ∧ d ≠ marker then
      1 + countLineStartMatches marker rest (d = '\n')
    else
      countLineStartMatches marker (d :: rest) (c = '\n')

/-- Word characters for the regex `\b` boundary. -/
def isWordChar (c : Char) : Bool := c.isAlphanum || c == '_'

/-- Whether the `\b` after a keyword `w` holds at the position right past an
occurrence of `w` at the head of `l`: the word-ness must flip (end of input
counts as non-word). -/
def wordBoundaryAfter (w l : List Char) : Bool :=
  match w.getLast? with
  | none => false
  | some lastc =>
    isWordChar lastc != (match l.drop w.length with
      | [] => false
      | d :: _ => isWordChar d)

/-- Whether `re.search(r'\bW\b', content)` would find the keyword `w` — i.e.
whether the language-indicator count for that keyword is positive.
`prevIsWord` records the word-ness of the previous char (string start counts
as non-word). -/
def hasRegexWord (w : List Char) : List Char → Bool → Bool
  | [], _ => false
  | c :: rest, prevIsWord =>
    (w.isPrefixOf (c :: rest) && (prevIsWord != isWordChar c) &&
      wordBoundaryAfter w (c :: rest)) ||
    hasRegexWord w rest (isWordChar c)

/-- Keyword alternations of the `language_indicators` regexes in
`calculate_complexity_factor`; only whether the match count is positive is
used. -/
def languageDetected (kws : List String) (content : String) : Bool :=
  kws.any fun w => hasRegexWord w.data content.data false

def pythonKeywords : List String := ["def", "class", "import"]

def javascriptKeywords : List String := ["function", "const", "let", "var"]

def javaKeywords : List String := ["public", "private", "class", "interface"]

def cppKeywords : List String := ["#include", "namespace", "struct"]

/-- `TokenCalculator.CHARS_PER_TOKEN`. -/
def CHARS_PER_TOKEN : ℕ := 4

/-- `TokenCalculator.BASE_TOKENS.get(analysis_type, 1000)` — the dict together
with the default used at its only read site (`calculate_dynamic_max_tokens`). -/
def BASE_TOKENS (analysis_type : String) : ℤ :=
  if analysis_type = "summary" then 200
  else if analysis_type = "heavy_analysis" then 800
  else if analysis_type = "individual_file" then 300
  else if analysis_type = "structured_extraction" then 400
  else if analysis_type = "release_notes" then 150
  else 1000

/-- `TokenCalculator.MAX_TOKENS.get(analysis_type, 4000)`. -/
def MAX_TOKENS (analysis_type : String) : ℤ :=
  if analysis_type = "summary" then 400
  else if analysis_type = "heavy_analysis" then 1500
  else if analysis_type = "individual_file" then 800
  else if analysis_type = "structured_extraction" then 1000
  else if analysis_type = "release_notes" then 300
  else 4000

/-- `TokenCalculator.MIN_TOKENS.get(analysis_type, 300)` (the same default is
used on both read sites). -/
def MIN_TOKENS (analysis_type : String) : ℤ :=
  if analysis_type = "summary" then 100
  else if analysis_type = "heavy_analysis" then 500
  else if analysis_type = "individual_file" then 300
  else if analysis_type = "structured_extraction" then 200
  else if analysis_type = "release_notes" then 50
  else 300

/-- `TokenCalculator.estimate_input_tokens`: `len(text) // 4`, multiplied by
`1.2` (and truncated back to int) when any code-indicator char occurs. -/
def estimate_input_tokens (text : String) : ℕ :=
  if text = "" then 0
  else
    let char_count := text.length
    let estimated_tokens := char_count / CHARS_PER_TOKEN
    let code_indicators := (text.data.filter isCodeIndicatorChar).length
    if 0 < code_indicators then (pyInt ((estimated_tokens : ℚ) * (12 / 10))).toNat
    else estimated_tokens

/-- `TokenCalculator.calculate_complexity_factor`.  Float literals `1.3`,
`0.1`, `1.2`, `1.15` are the exact rationals written below. -/
def calculate_complexity_factor (content : String) : ℚ :=
  if content = "" then 1
  else
    let lines := content.splitOn "\n"
    let total_lines := lines.length
    if total_lines = 0 then 1
    else
      let complexity_factor : ℚ := 1
      let code_chars := (content.data.filter isComplexityCodeChar).length
      let code_density : ℚ := (code_chars : ℚ) / (content.length : ℚ)
      let complexity_factor :=
        if 1 / 10 < code_density then complexity_factor * (13 / 10) else complexity_factor
      let file_count := countOccurs "+++ b/".data content.data
      let complexity_factor :=
        if 1 < file_count then
          complexity_factor * (1 + ((file_count : ℚ) - 1) * (1 / 10))
        else complexity_factor
      let added_lines := countLineStartMatches '+' content.data true
      let deleted_lines := countLineStartMatches '-' content.data true
      let change_ratio : ℚ := ((added_lines : ℚ) + (deleted_lines : ℚ)) / (total_lines : ℚ)
      let complexity_factor :=
        if 1 / 2 < change_ratio then complexity_factor * (12 / 10) else complexity_factor
      let languages_detected :=
        (if languageDetected pythonKeywords content then 1 else 0) +
        (if languageDetected javascriptKeywords content then 1 else 0) +
        (if languageDetected javaKeywords content then 1 else 0) +
        (if languageDetected cppKeywords content then 1 else 0)
      let complexity_factor :=
        if 1 < languages_detected then complexity_factor * (115 / 100) else complexity_factor
      min complexity_factor 2

/-- `TokenCalculator.calculate_dynamic_max_tokens`.  `math.log10` is the real
base-10 logarithm, hence the large-input branch lives in `ℝ`; the truthiness
test `if model_context_window:` makes a supplied window of `0` behave like an
absent one. -/
noncomputable def calculate_dynamic_max_tokens (input_content : String)
    (analysis_type : String) (model_context_window : Option ℤ) : ℤ :=
  if input_content = "" then MIN_TOKENS analysis_type
  else
    let base_tokens := BASE_TOKENS analysis_type
    let max_tokens := MAX_TOKENS analysis_type
    let min_tokens := MIN_TOKENS analysis_type
    let input_tokens := estimate_input_tokens input_content
    let complexity_factor := calculate_complexity_factor input_content
    let calculated_tokens : ℤ :=
      if input_tokens < 100 then min_tokens
      else if input_tokens < 500 then pyInt ((base_tokens : ℚ) * complexity_factor)
      else
        pyIntR ((base_tokens : ℝ) *
          (1 + Real.logb 10 ((input_tokens : ℝ) / 500) * (1 / 2)) *
          ((complexity_factor : ℚ) : ℝ))
    let calculated_tokens := max min_tokens (min max_tokens calculated_tokens)
    match model_context_window with
    | none => calculated_tokens
    | some w =>
      if w ≠ 0 then
        let max_output_tokens := w - (input_tokens : ℤ) - 100
        min calculated_tokens (max min_tokens max_output_tokens)
      else calculated_tokens

theorem MIN_le_MAX (analysis_type : String) :
    MIN_TOKENS analysis_type ≤ MAX_TOKENS analysis_type := by
  unfold MIN_TOKENS MAX_TOKENS
  split_ifs <;> norm_num

theorem one_le_ite_mul {c : Prop} [Decidable c] {x k : ℚ} (hx : 1 ≤ x)
    (hk : c → 1 ≤ k) : 1 ≤ if c then x * k else x := by
  split
  case isTrue h => nlinarith [hk h]
  case isFalse h => exact hx

theorem one_le_calculate_complexity_factor (content : String) :
    1 ≤ calculate_complexity_factor content := by
  simp only [calculate_complexity_factor]
  by_cases h1 : content = ""
  · rw [if_pos h1]
  · rw [if_neg h1]
    by_cases h2 : (content.splitOn "\n").length = 0
    · rw [if_pos h2]
    · rw [if_neg h2]
      refine le_min ?_ (by norm_num)
      refine one_le_ite_mul (one_le_ite_mul (one_le_ite_mul (one_le_ite_mul (le_refl 1)
        (fun _ => by norm_num)) ?_) (fun _ => by norm_num)) (fun _ => by norm_num)
      intro hf
      have h3 : (2 : ℚ) ≤ (countOccurs "+++ b/".data content.data : ℚ) := by
        exact_mod_cast hf
      nlinarith

theorem zero_le_calculate_complexity_factor (content : String) :
    0 ≤ calculate_complexity_factor content :=
  le_trans zero_le_one (one_le_calculate_complexity_factor content)

theorem calc_med_mono (bB bA : ℤ) (cf : ℚ) (hb : bB ≤ bA) (hcf : 0 ≤ cf) :
    pyInt ((bB : ℚ) * cf) ≤ pyInt ((bA : ℚ) * cf) :=
  pyInt_mono (mul_le_mul_of_nonneg_right (by exact_mod_cast hb) hcf)

theorem calc_large_mono (bB bA : ℤ) (it : ℕ) (cf : ℚ) (hb : bB ≤ bA) (hcf : 0 ≤ cf)
    (h500 : 500 ≤ it) :
    pyIntR ((bB : ℝ) * (1 + Real.logb 10 ((it : ℝ) / 500) * (1 / 2)) * ((cf : ℚ) : ℝ)) ≤
      pyIntR ((bA : ℝ) * (1 + Real.logb 10 ((it : ℝ) / 500) * (1 / 2)) * ((cf : ℚ) : ℝ)) := by
  apply pyIntR_mono
  have hcfR : (0 : ℝ) ≤ ((cf : ℚ) : ℝ) := by exact_mod_cast hcf
  have hscale : (0 : ℝ) ≤ 1 + Real.logb 10 ((it : ℝ) / 500) * (1 / 2) := by
    have h1 : (1 : ℝ) ≤ (it : ℝ) / 500 := by
      rw [le_div_iff₀ (by norm_num : (0 : ℝ) < 500)]
      exact_mod_cast by simpa using h500
    have hlog := Real.logb_nonneg (by norm_num : (1 : ℝ) < 10) h1
    linarith
  have hbR : (bB : ℝ) ≤ (bA : ℝ) := by exact_mod_cast hb
  exact mul_le_mul_of_nonneg_right (mul_le_mul_of_nonneg_right hbR hscale) hcfR

/-- Claim C3, counterexample: for content `"hello"` (estimated input 1 token),
class `summary` and context window 150, the code returns `MIN_TOKENS = 100`,
which exceeds `contextWindow - inputTokens - 100 = 49`: the window clamp never
goes below the class minimum. -/
theorem C3_counterexample :
    calculate_dynamic_max_tokens "hello" "summary" (some 150) = 100 ∧
    ¬ (calculate_dynamic_max_tokens "hello" "summary" (some 150) ≤
        150 - (estimate_input_tokens "hello" : ℤ) - 100) := by
  constructor
  · decide
  · decide

/-- Claim C3, amended: for every content, request class and context window,
the result lies within `[MIN_TOKENS class, MAX_TOKENS class]`, and when a
nonzero context window is supplied the result never exceeds
`max (MIN_TOKENS class) (contextWindow - estimated input tokens - 100)` —
i.e. the window cap holds except that the result never drops below the class
minimum. -/
theorem C3_output_bounds (input_content analysis_type : String) (mcw : Option ℤ) :
    MIN_TOKENS analysis_type ≤ calculate_dynamic_max_tokens input_content analysis_type mcw ∧
    calculate_dynamic_max_tokens input_content analysis_type mcw ≤ MAX_TOKENS analysis_type ∧
    (∀ w : ℤ, mcw = some w → w ≠ 0 →
      calculate_dynamic_max_tokens input_content analysis_type mcw ≤
        max (MIN_TOKENS analysis_type)
          (w - (estimate_input_tokens input_content : ℤ) - 100)) := by
  cases mcw with
  | none =>
    simp only [calculate_dynamic_max_tokens]
    by_cases h0 : input_content = ""
    · simp only [if_pos h0]
      exact ⟨le_refl _, MIN_le_MAX _, fun w hw => Option.noConfusion hw⟩
    · simp only [if_neg h0]
      exact ⟨le_max_left _ _, max_le (MIN_le_MAX _) (min_le_left _ _),
        fun w hw => Option.noConfusion hw⟩
  | some w =>
    simp only [calculate_dynamic_max_tokens]
    by_cases h0 : input_content = ""
    · simp only [if_pos h0]
      refine ⟨le_refl _, MIN_le_MAX _, ?_⟩
      intro w' hw' hw0
      exact le_max_left _ _
    · simp only [if_neg h0]
      by_cases hw : w ≠ 0
      · simp only [if_pos hw]
        refine ⟨le_min (le_max_left _ _) (le_max_left _ _),
          (min_le_left _ _).trans (max_le (MIN_le_MAX _) (min_le_left _ _)), ?_⟩
        intro w' hw' hw0
        obtain rfl : w = w' := Option.some.inj hw'
        exact min_le_right _ _
      · simp only [if_neg hw]
        refine ⟨le_max_left _ _, max_le (MIN_le_MAX _) (min_le_left _ _), ?_⟩
        intro w' hw' hw0
        obtain rfl : w = w' := Option.some.inj hw'
        exact absurd hw0 hw

/-- Witness for the amended C3 at concrete inputs. -/
theorem C3_output_bounds_witness :
    calculate_dynamic_max_tokens "hello" "summary" (some 150) ≤
      max (MIN_TOKENS "summary") (150 - (estimate_input_tokens "hello" : ℤ) - 100) :=
  (C3_output_bounds "hello" "summary" (some 150)).2.2 150 rfl (by decide)

/-- Claim C4, counterexample: `structured_extraction` has a strictly higher
configured `MAX_TOKENS` (1000) than `individual_file` (800), yet on the short
content `"hi"` it returns its `MIN_TOKENS` 200, which is smaller than
`individual_file`'s 300. -/
theorem C4_counterexample :
    MAX_TOKENS "individual_file" < MAX_TOKENS "structured_extraction" ∧
    calculate_dynamic_max_tokens "hi" "structured_extraction" none <
      calculate_dynamic_max_tokens "hi" "individual_file" none := by
  constructor
  · decide
  · decide

/-- Claim C4, amended: for identical content and other inputs, a request class
whose configured `BASE_TOKENS`, `MIN_TOKENS` and `MAX_TOKENS` are all at least
those of another class never yields a smaller result (the hypothesis on the
configured max alone is not enough — see the counterexample — because small
inputs return the class minimum). -/
theorem C4_monotone_in_configured_bounds (input_content tyB tyA : String) (mcw : Option ℤ)
    (hbase : BASE_TOKENS tyB ≤ BASE_TOKENS tyA)
    (hmin : MIN_TOKENS tyB ≤ MIN_TOKENS tyA)
    (hmax : MAX_TOKENS tyB ≤ MAX_TOKENS tyA) :
    calculate_dynamic_max_tokens input_content tyB mcw ≤
      calculate_dynamic_max_tokens input_content tyA mcw := by
  have hcf0 := zero_le_calculate_complexity_factor input_content
  cases mcw with
  | none =>
    simp only [calculate_dynamic_max_tokens]
    split_ifs with h0 hs hm
    · exact hmin
    · exact max_le_max hmin (min_le_min hmax hmin)
    · exact max_le_max hmin (min_le_min hmax (calc_med_mono _ _ _ hbase hcf0))
    · exact max_le_max hmin (min_le_min hmax (calc_large_mono _ _ _ _ hbase hcf0 (by omega)))
  | some w =>
    simp only [calculate_dynamic_max_tokens]
    by_cases h0 : input_content = ""
    · simp only [if_pos h0]; exact hmin
    · simp only [if_neg h0]
      by_cases hw : w ≠ 0
      · simp only [if_pos hw]
        by_cases hs : estimate_input_tokens input_content < 100
        · simp only [if_pos hs]
          exact min_le_min (max_le_max hmin (min_le_min hmax hmin)) (max_le_max hmin (le_refl _))
        · simp only [if_neg hs]
          by_cases hm : estimate_input_tokens input_content < 500
          · simp only [if_pos hm]
            exact min_le_min (max_le_max hmin (min_le_min hmax
              (calc_med_mono _ _ _ hbase hcf0))) (max_le_max hmin (le_refl _))
          · simp only [if_neg hm]
            exact min_le_min (max_le_max hmin (min_le_min hmax
              (calc_large_mono _ _ _ _ hbase hcf0 (by omega)))) (max_le_max hmin (le_refl _))
      · simp only [if_neg hw]
        by_cases hs : estimate_input_tokens input_content < 100
        · simp only [if_pos hs]
          exact max_le_max hmin (min_le_min hmax hmin)
        · simp only [if_neg hs]
          by_cases hm : estimate_input_tokens input_content < 500
          · simp only [if_pos hm]
            exact max_le_max hmin (min_le_min hmax (calc_med_mono _ _ _ hbase hcf0))
          · simp only [if_neg hm]
            exact max_le_max hmin (min_le_min hmax
              (calc_large_mono _ _ _ _ hbase hcf0 (by omega)))

/-- Witness for the amended C4 at concrete inputs. -/
theorem C4_monotone_in_configured_bounds_witness :
    calculate_dynamic_max_tokens "x" "summary" none ≤
      calculate_dynamic_max_tokens "x" "heavy_analysis" none :=
  C4_monotone_in_configured_bounds "x" "summary" "heavy_analysis" none
    (by decide) (by decide) (by decide)

/-! ## Token budget manager (`src/token_calculator.py`, class
`TokenBudgetManager`) -/

/-- Python's `str.lower()`, modelled as the character-wise lowercasing of the
string (the executable specification of `String.toLower`). -/
def pyLower (s : String) : String := ⟨s.data.map Char.toLower⟩

/-- Python's `pat in s` substring test, on char lists. -/
def infixOf (pat : List Char) : List Char → Bool
  | [] => pat.isEmpty
  | c :: rest => pat.isPrefixOf (c :: rest) || infixOf pat rest

/-- `pat in s` for strings. -/
def strContains (s pat : String) : Bool := infixOf pat.data s.data

/-- Lookup in a Python dict modelled as an insertion-ordered association
list. -/
def dictFind {α : Type} (d : List (String × α)) (key : String) : Option α :=
  (d.find? (fun p => p.1 == key)).map (fun p => p.2)

/-- `d[key] = v`: update in place when the key exists, else append. -/
def dictSet {α : Type} : List (String × α) → String → α → List (String × α)
  | [], key, v => [(key, v)]
  | (k, w) :: rest, key, v =>
    if k == key then (key, v) :: rest else (k, w) :: dictSet rest key v

/-- The mutable state of a `TokenBudgetManager`.  `token_usage_log` maps a
model id to its `(timestamp, tokens_used)` records. -/
structure TokenBudgetManager where
  token_usage_log : List (String × List (ℚ × ℤ))
  quota_cache : List (String × ℤ)
  quota_cache_time : Option ℚ
  quota_cache_ttl : ℚ
  fallback_quotas : List (String × ℤ)
deriving Repr, DecidableEq

/-- The `fallback_quotas` dict set up in `__init__`. -/
def initialFallbackQuotas : List (String × ℤ) :=
  [("claude-3", 10000), ("claude-4", 8000), ("anthropic.claude", 15000),
   ("amazon.titan", 5000), ("default", 5000)]

namespace TokenBudgetManager

/-- `_is_quota_cache_valid`: a missing cache time — or a zero one, by Python
falsiness — is invalid; otherwise valid while younger than the TTL. -/
def is_quota_cache_valid (m : TokenBudgetManager) (now : ℚ) : Bool :=
  match m.quota_cache_time with
  | none => false
  | some t => if t = 0 then false else decide (now - t < m.quota_cache_ttl)

/-- `_discover_quotas`: the Service Quotas round trip is external I/O, so the
`discovered` oracle carries its outcome (`none` when discovery is disabled via
the environment or the query raised).  A nonempty result replaces the cache,
stamps the cache time and folds every discovered pattern into
`fallback_quotas`; an empty result leaves the state untouched. -/
def discover_quotas (m : TokenBudgetManager) (discovered : Option (List (String × ℤ)))
    (now : ℚ) : TokenBudgetManager :=
  match discovered with
  | none => m
  | some discovered_quotas =>
    if discovered_quotas.isEmpty then m
    else
      { m with
        quota_cache := discovered_quotas
        quota_cache_time := some now
        fallback_quotas :=
          discovered_quotas.foldl (fun fb p => dictSet fb p.1 p.2) m.fallback_quotas }

/-- The pattern search of `get_quota_for_model`: first substring match in the
discovered cache (when nonempty), then in the fallback table, else the
`'default'` fallback entry.  The `'default'` key is always present in
reachable states; its absence (a Python `KeyError`) is modelled as 0. -/
def quotaLookup (quota_cache fallback_quotas : List (String × ℤ)) (idl : String) : ℤ :=
  match (if quota_cache.isEmpty then none
         else (quota_cache.find? (fun p => strContains idl p.1)).map (fun p => p.2)) with
  | some quota => quota
  | none =>
    match (fallback_quotas.find? (fun p => strContains idl p.1)).map (fun p => p.2) with
    | some quota => quota
    | none => (dictFind fallback_quotas "default").getD 0

/-- `get_quota_for_model`: refresh the discovered cache when stale, then look
the lowercased model id up per `quotaLookup`. -/
def get_quota_for_model (m : TokenBudgetManager) (discovered : Option (List (String × ℤ)))
    (now : ℚ) (model_id : String) : ℤ × TokenBudgetManager :=
  let m1 := if m.is_quota_cache_valid now then m else m.discover_quotas discovered now
  (quotaLookup m1.quota_cache m1.fallback_quotas (pyLower model_id), m1)

/-- `clean_old_usage`: make sure the key exists (fresh empty list when
missing), then keep only records strictly newer than `current_time - 60`. -/
def clean_old_usage (m : TokenBudgetManager) (model_id : String) (current_time : ℚ) :
    TokenBudgetManager :=
  let log0 := (dictFind m.token_usage_log model_id).getD []
  let cutoff_time := current_time - 60
  { m with
    token_usage_log :=
      dictSet m.token_usage_log model_id
        (log0.filter (fun e => decide (cutoff_time < e.1))) }

/-- `get_current_usage` (its internal `time.time()` is the `now` argument):
clean, then sum the remaining records for the key. -/
def get_current_usage (m : TokenBudgetManager) (model_id : String) (now : ℚ) :
    ℤ × TokenBudgetManager :=
  let m1 := m.clean_old_usage model_id now
  ((((dictFind m1.token_usage_log model_id).getD []).map (fun e => e.2)).sum, m1)

/-- `can_use_tokens`: advisory check `(requested ≤ quota - currentUsage,
quota - currentUsage)`. -/
def can_use_tokens (m : TokenBudgetManager) (discovered : Option (List (String × ℤ)))
    (now : ℚ) (model_id : String) (requested_tokens : ℤ) :
    (Bool × ℤ) × TokenBudgetManager :=
  let r1 := m.get_current_usage model_id now
  let r2 := r1.2.get_quota_for_model discovered now model_id
  let available := r2.1 - r1.1
  ((decide (requested_tokens ≤ available), available), r2.2)

/-- `record_usage` (its internal `time.time()` is the `now` argument): append
`(now, tokens_used)` to the key's log (created fresh when missing). -/
def record_usage (m : TokenBudgetManager) (model_id : String) (tokens_used : ℤ)
    (now : ℚ) : TokenBudgetManager :=
  let log0 := (dictFind m.token_usage_log model_id).getD []
  { m with
    token_usage_log := dictSet m.token_usage_log model_id (log0 ++ [(now, tokens_used)]) }

end TokenBudgetManager

theorem dictFind_dictSet_self {α : Type} (d : List (String × α)) (key : String) (v : α) :
    dictFind (dictSet d key v) key = some v := by
  induction d with
  | nil => simp [dictFind, dictSet]
  | cons p rest ih =>
    obtain ⟨k, w⟩ := p
    by_cases h : k == key
    · simp only [dictSet, if_pos h]
      simp [dictFind]
    · simp only [dictSet, if_neg h]
      simpa [dictFind, List.find?, h] using ih

theorem discover_quotas_quota_cache (m : TokenBudgetManager)
    (L : List (String × List (ℚ × ℤ))) (disc : Option (List (String × ℤ))) (now : ℚ) :
    (({ m with token_usage_log := L } : TokenBudgetManager).discover_quotas disc now).quota_cache =
      (m.discover_quotas disc now).quota_cache := by
  cases disc with
  | none => rfl
  | some qs =>
    by_cases h : qs.isEmpty <;> simp [TokenBudgetManager.discover_quotas, h]

theorem discover_quotas_fallback_quotas (m : TokenBudgetManager)
    (L : List (String × List (ℚ × ℤ))) (disc : Option (List (String × ℤ))) (now : ℚ) :
    (({ m with token_usage_log := L } : TokenBudgetManager).discover_quotas disc
        now).fallback_quotas =
      (m.discover_quotas disc now).fallback_quotas := by
  cases disc with
  | none => rfl
  | some qs =>
    by_cases h : qs.isEmpty <;> simp [TokenBudgetManager.discover_quotas, h]

theorem get_quota_fst_log_independent (m : TokenBudgetManager)
    (L : List (String × List (ℚ × ℤ))) (disc : Option (List (String × ℤ)))
    (now : ℚ) (mid : String) :
    (({ m with token_usage_log := L } : TokenBudgetManager).get_quota_for_model disc now
        mid).1 =
      (m.get_quota_for_model disc now mid).1 := by
  simp only [TokenBudgetManager.get_quota_for_model]
  have hv : ({ m with token_usage_log := L } : TokenBudgetManager).is_quota_cache_valid now =
      m.is_quota_cache_valid now := rfl
  rw [hv]
  by_cases h : m.is_quota_cache_valid now
  · simp [h]
  · simp [h, discover_quotas_quota_cache, discover_quotas_fallback_quotas]

/-- Claim C7: `can_use_tokens(key, n)` returns `available` equal to the quota
for the key minus the sum of the key's usage-log entries recorded within the
trailing 60 seconds (strictly newer than `now - 60`), and returns
`allowed = false` iff `n > available`; moreover usage recorded at `t0`
contributes nothing when queried at `t0 + 61` (for a key whose prior entries
are all from `t0` or earlier, the queried usage is 0). -/
theorem C7_can_use_tokens_sliding_window (m : TokenBudgetManager)
    (discovered : Option (List (String × ℤ))) (now : ℚ) (key : String) (n : ℤ) :
    ((m.can_use_tokens discovered now key n).1.2 =
        (m.get_quota_for_model discovered now key).1 -
          ((((dictFind m.token_usage_log key).getD []).filter
              (fun e => decide (now - 60 < e.1))).map (fun e => e.2)).sum) ∧
    ((m.can_use_tokens discovered now key n).1.1 = false ↔
      n > (m.can_use_tokens discovered now key n).1.2) ∧
    (∀ (k : ℤ) (t0 : ℚ),
      (∀ e ∈ (dictFind m.token_usage_log key).getD [], e.1 ≤ t0) →
      ((m.record_usage key k t0).get_current_usage key (t0 + 61)).1 = 0) := by
  refine ⟨?_, ?_, ?_⟩
  · simp only [TokenBudgetManager.can_use_tokens, TokenBudgetManager.get_current_usage,
      TokenBudgetManager.clean_old_usage]
    rw [dictFind_dictSet_self, get_quota_fst_log_independent]
    simp
  · simp only [TokenBudgetManager.can_use_tokens, decide_eq_false_iff_not]
    exact not_le
  · intro k t0 hle
    simp only [TokenBudgetManager.get_current_usage, TokenBudgetManager.clean_old_usage,
      TokenBudgetManager.record_usage]
    rw [dictFind_dictSet_self]
    rw [dictFind_dictSet_self]
    have hf : (((dictFind m.token_usage_log key).getD [] ++ [(t0, k)]).filter
        (fun e => decide (t0 + 61 - 60 < e.1))) = [] := by
      rw [List.filter_eq_nil_iff]
      intro e he
      rcases List.mem_append.mp he with h1 | h2
      · have := hle e h1
        simp only [decide_eq_true_eq, not_lt]
        linarith
      · rcases List.mem_singleton.mp h2 with rfl
        simp only [decide_eq_true_eq, not_lt]
        linarith
    simp [hf]

/-- Witness for C7 at a concrete manager: one entry recorded at time 0 plus
one recorded at time 100 contribute nothing at time 161. -/
theorem C7_can_use_tokens_sliding_window_witness :
    (((⟨[("m", [((0 : ℚ), (5 : ℤ))])], [], none, 300,
          initialFallbackQuotas⟩ : TokenBudgetManager).record_usage "m" 7
        100).get_current_usage "m" (100 + 61)).1 = 0 :=
  (C7_can_use_tokens_sliding_window
      ⟨[("m", [((0 : ℚ), (5 : ℤ))])], [], none, 300, initialFallbackQuotas⟩
      none 10 "m" 3).2.2 7 100 (by norm_num [dictFind])

/-- Claim C10: querying a key that has never had usage recorded is safe —
`get_current_usage` returns 0 and initializes the key's log to the empty list,
and `can_use_tokens` returns `(n ≤ quota(key), quota(key))`. -/
theorem C10_unknown_key_is_safe (m : TokenBudgetManager)
    (discovered : Option (List (String × ℤ))) (now : ℚ) (key : String) (n : ℤ)
    (h : dictFind m.token_usage_log key = none) :
    (m.get_current_usage key now).1 = 0 ∧
    dictFind (m.get_current_usage key now).2.token_usage_log key = some [] ∧
    (m.can_use_tokens discovered now key n).1 =
      (decide (n ≤ (m.get_quota_for_model discovered now key).1),
        (m.get_quota_for_model discovered now key).1) := by
  refine ⟨?_, ?_, ?_⟩
  · simp only [TokenBudgetManager.get_current_usage, TokenBudgetManager.clean_old_usage, h]
    rw [dictFind_dictSet_self]
    simp
  · simp only [TokenBudgetManager.get_current_usage, TokenBudgetManager.clean_old_usage, h]
    rw [dictFind_dictSet_self]
    simp
  · simp only [TokenBudgetManager.can_use_tokens, TokenBudgetManager.get_current_usage,
      TokenBudgetManager.clean_old_usage, h]
    rw [dictFind_dictSet_self, get_quota_fst_log_independent]
    simp

/-- Witness for C10 at a concrete fresh manager and an unknown model id. -/
theorem C10_unknown_key_is_safe_witness :
    ((⟨[], [], none, 300, initialFallbackQuotas⟩ : TokenBudgetManager).get_current_usage
        "anthropic.claude-v2" 5).1 = 0 ∧
    dictFind ((⟨[], [], none, 300,
        initialFallbackQuotas⟩ : TokenBudgetManager).get_current_usage
          "anthropic.claude-v2" 5).2.token_usage_log "anthropic.claude-v2" = some [] ∧
    ((⟨[], [], none, 300, initialFallbackQuotas⟩ : TokenBudgetManager).can_use_tokens none 5
        "anthropic.claude-v2" 3).1 =
      (decide (3 ≤ ((⟨[], [], none, 300,
          initialFallbackQuotas⟩ : TokenBudgetManager).get_quota_for_model none 5
            "anthropic.claude-v2").1),
        ((⟨[], [], none, 300, initialFallbackQuotas⟩ : TokenBudgetManager).get_quota_for_model
          none 5 "anthropic.claude-v2").1) :=
  C10_unknown_key_is_safe ⟨[], [], none, 300, initialFallbackQuotas⟩ none 5
    "anthropic.claude-v2" 3 rfl

/-! ## Bedrock invocation retry loop (`src/bedrock_handler.py`,
`BedrockHandler.invoke_model`) -/

/-- Outcome of one iteration of the `while` loop body, as observed at the
collaborator boundary (rate limiter, Bedrock endpoint, JSON decoding, text
extraction). -/
inductive AttemptOutcome where
  | rateLimiterTimeout
  | clientError (code message : String)
  | jsonDecodeError
  | noValidText
  | success (text : String)
  | otherException (message : String)
deriving Repr, DecidableEq

/-- How `invoke_model` terminates: the returned payload, or the kind of
exception raised. -/
inductive InvokeResult where
  | ok (text : String)
  | valueError (message : String)
  | runtimeError (message : String)
deriving Repr, DecidableEq

/-- The `retryable_errors` list of `invoke_model`. -/
def retryable_errors : List String :=
  ["ThrottlingException", "ModelTimeoutException", "ServiceUnavailableException",
   "InternalServerException"]

/-- The `while attempt <= max_retries` loop of `invoke_model`: the oracle
gives each attempt's outcome, and the second component of the result is the
final value of `attempt` — the number of retries performed.  A `RuntimeError`
raised inside the `try` (rate-limiter timeout, JSON decode failure, missing
text) is caught by the generic `except` clause and re-raised wrapped in
"Unexpected error invoking ...".  Backoff sleeping is pure timing and not
modelled; each retry re-enters the loop body, which re-acquires admission. -/
def invokeLoop (oracle : ℕ → AttemptOutcome) (model_id : String) (max_retries : ℕ)
    (attempt : ℕ) : InvokeResult × ℕ :=
  match oracle attempt with
  | .success text => (.ok text.trim, attempt)
  | .rateLimiterTimeout =>
      (.runtimeError ("Unexpected error invoking " ++ model_id ++
        ": Rate limiter timeout - too many requests"), attempt)
  | .jsonDecodeError =>
      (.runtimeError ("Unexpected error invoking " ++ model_id ++
        ": Failed to decode JSON response from " ++ model_id ++
        ". Check logs for details."), attempt)
  | .noValidText =>
      (.runtimeError ("Unexpected error invoking " ++ model_id ++ ": Model " ++ model_id ++
        " returned no valid string text. Check logs."), attempt)
  | .otherException message =>
      (.runtimeError ("Unexpected error invoking " ++ model_id ++ ": " ++ message), attempt)
  | .clientError code message =>
    if h : code ∈ retryable_errors ∧ attempt < max_retries then
      invokeLoop oracle model_id max_retries (attempt + 1)
    else if code = "AccessDeniedException" then
      (.runtimeError ("Access denied for " ++ model_id ++ ". Check IAM permissions."),
       attempt)
    else if code = "ResourceNotFoundException" then
      (.runtimeError ("Model " ++ model_id ++ " not found. Ensure it is enabled in the region."),
       attempt)
    else if code = "ValidationException" then
      (.valueError ("Invalid request parameters for model " ++ model_id ++ ". Details: " ++
        message), attempt)
    else
      (.runtimeError ("Bedrock API error for " ++ model_id ++ " (" ++ code ++ " - " ++
        (if code ∈ retryable_errors then
          "after " ++ toString (max_retries + 1) ++ " attempts"
         else "non-retryable error") ++ "): " ++ message), attempt)
termination_by max_retries + 1 - attempt
decreasing_by have := h.2; omega

/-- `invoke_model`: the empty-argument guards, then the retry loop.  The
module-global `TokenBudgetManager` is threaded through so that usage
recording would be observable; the function as written never references it,
so the state passes through unchanged.  Dynamic `max_tokens` sizing and
request-body construction only shape the payload sent to the endpoint (whose
behaviour the oracle already summarises), not the control flow. -/
def invoke_model (budget : TokenBudgetManager) (oracle : ℕ → AttemptOutcome)
    (model_id prompt : String) (max_retries : ℕ) :
    InvokeResult × ℕ × TokenBudgetManager :=
  if model_id = "" then (.valueError "Model ID cannot be empty.", 0, budget)
  else if prompt = "" then (.valueError "Prompt cannot be empty.", 0, budget)
  else
    let r := invokeLoop oracle model_id max_retries 0
    (r.1, r.2, budget)

theorem invokeLoop_clientError_not_retryable (oracle : ℕ → AttemptOutcome)
    (model_id : String) (max_retries attempt : ℕ) (code message : String)
    (h0 : oracle attempt = .clientError code message) (hnr : code ∉ retryable_errors) :
    (invokeLoop oracle model_id max_retries attempt).2 = attempt ∧
    ∀ t, (invokeLoop oracle model_id max_retries attempt).1 ≠ .ok t := by
  rw [invokeLoop, h0]
  dsimp only
  rw [dif_neg (by exact fun hc => hnr hc.1)]
  split_ifs <;> exact ⟨rfl, fun t => by simp⟩

/-- Claim C1 (code bug): on success `invoke_model` is supposed to record the
tokens consumed into the budget tracker before returning, but it never calls
`TokenBudgetManager.record_usage`: the budget state passes through every
invocation unchanged, so the usage log gains no entry even for a successful
call.  The second conjunct evaluates the failing input — a first-attempt
success against a fresh manager — and the log stays empty. -/
theorem C1_success_records_no_usage :
    (∀ (budget : TokenBudgetManager) (oracle : ℕ → AttemptOutcome)
        (model_id prompt : String) (max_retries : ℕ),
      (invoke_model budget oracle model_id prompt max_retries).2.2 = budget) ∧
    invoke_model ⟨[], [], none, 300, initialFallbackQuotas⟩
        (fun _ => .success "ok") "anthropic.claude-v2" "Human: hi" 3 =
      (.ok "ok".trim, 0, ⟨[], [], none, 300, initialFallbackQuotas⟩) := by
  constructor
  · intro budget oracle model_id prompt max_retries
    unfold invoke_model
    split_ifs <;> rfl
  · rw [invoke_model]
    rw [if_neg (by decide), if_neg (by decide)]
    rw [invokeLoop]

/-- Claim C9: when the first attempt fails with `AccessDeniedException`,
`ResourceNotFoundException` or `ValidationException` (validation errors),
`invoke_model` raises a terminal error immediately: zero retries are
performed whatever `max_retries` is, and no payload is returned. -/
theorem C9_fatal_errors_propagate_immediately (budget : TokenBudgetManager)
    (oracle : ℕ → AttemptOutcome) (model_id prompt : String) (max_retries : ℕ)
    (code message : String) (hm : model_id ≠ "") (hp : prompt ≠ "")
    (h0 : oracle 0 = .clientError code message)
    (hc : code = "AccessDeniedException" ∨ code = "ResourceNotFoundException" ∨
      code = "ValidationException") :
    (invoke_model budget oracle model_id prompt max_retries).2.1 = 0 ∧
    ∀ t, (invoke_model budget oracle model_id prompt max_retries).1 ≠ .ok t := by
  have hnr : code ∉ retryable_errors := by
    rcases hc with rfl | rfl | rfl <;> decide
  have hloop := invokeLoop_clientError_not_retryable oracle model_id max_retries 0
    code message h0 hnr
  unfold invoke_model
  rw [if_neg hm, if_neg hp]
  exact hloop

/-- Witness for C9: a first-attempt `ValidationException` with positive
`max_retries`. -/
theorem C9_fatal_errors_propagate_immediately_witness :
    (invoke_model ⟨[], [], none, 300, initialFallbackQuotas⟩
        (fun _ => .clientError "ValidationException" "bad parameter")
        "anthropic.claude-v2" "Human: hi" 5).2.1 = 0 ∧
    ∀ t, (invoke_model ⟨[], [], none, 300, initialFallbackQuotas⟩
        (fun _ => .clientError "ValidationException" "bad parameter")
        "anthropic.claude-v2" "Human: hi" 5).1 ≠ .ok t :=
  C9_fatal_errors_propagate_immediately ⟨[], [], none, 300, initialFallbackQuotas⟩
    (fun _ => .clientError "ValidationException" "bad parameter")
    "anthropic.claude-v2" "Human: hi" 5 "ValidationException" "bad parameter"
    (by decide) (by decide) rfl (Or.inr (Or.inr rfl))

/-! ## Per-file analysis loop (`src/main.py`, individual file analysis with
circuit breaker and progressive delays) -/

/-- One changed-file entry as consumed by the loop: GitHub's `filename` and
`patch` fields; either may be absent, and empty strings are falsy. -/
structure FileInfo where
  filename : Option String
  patch : Option String
deriving Repr, DecidableEq

/-- Python truthiness of `file_info.get(...)`. -/
def pyTruthy : Option String → Bool
  | none => false
  | some s => s ≠ ""

/-- Outcome of `analysis_service.analyze_individual_file_diff` for one file:
the returned text (possibly empty, which is falsy) or the raised exception's
message. -/
inductive FileOutcome where
  | result (text : String)
  | error (message : String)
deriving Repr, DecidableEq

/-- The except-branch classification
`"ThrottlingException" in str(e) and "tokens" in str(e).lower()`. -/
def isTokenThrottlingMsg (message : String) : Bool :=
  strContains message "ThrottlingException" && strContains (pyLower message) "tokens"

/-- The `time.sleep` calls issued by the individual-file analysis loop, as
`(index, delaySeconds)` events in order.  `index` is the `enumerate` counter,
`tfc` the running `throttling_failure_count`, `maxtf` the configured
`max_throttling_failures`; the oracle gives each invoked file's analysis
outcome.  Per the source: the breaker check comes first (skipping all
remaining files with placeholders, no delays); a file analysed without an
exception resets the failure count and — when not the last file — sleeps
`2.0 * min(1 + 0.1*index, 3.0)`; a token-throttling failure increments the
count and sleeps `min(10 + 5*count, 30)` when not the last file; any other
failure, and files without filename or patch, sleep nothing. -/
def analyzeLoopDelays (oracle : ℕ → FileOutcome) (maxtf : ℕ) :
    ℕ → ℕ → List FileInfo → List (ℕ × ℚ)
  | _, _, [] => []
  | index, tfc, f :: rest =>
    if maxtf ≤ tfc then []
    else if pyTruthy f.filename && pyTruthy f.patch then
      match oracle index with
      | .result _ =>
        if rest ≠ [] then
          (index, 2 * min (1 + (index : ℚ) * (1 / 10)) 3) ::
            analyzeLoopDelays oracle maxtf (index + 1) 0 rest
        else analyzeLoopDelays oracle maxtf (index + 1) 0 rest
      | .error message =>
        if isTokenThrottlingMsg message then
          if rest ≠ [] then
            (index, min (10 + ((tfc + 1 : ℕ) : ℚ) * 5) 30) ::
              analyzeLoopDelays oracle maxtf (index + 1) (tfc + 1) rest
          else analyzeLoopDelays oracle maxtf (index + 1) (tfc + 1) rest
        else analyzeLoopDelays oracle maxtf (index + 1) tfc rest
    else analyzeLoopDelays oracle maxtf (index + 1) tfc rest

/-- Delays for a whole batch: the loop starts at index 0 with failure count
0 (`throttling_failure_count = 0` before the loop). -/
def individualFileDelays (oracle : ℕ → FileOutcome) (files : List FileInfo)
    (maxtf : ℕ) : List (ℕ × ℚ) :=
  analyzeLoopDelays oracle maxtf 0 0 files

/-- Claim C6, counterexample: two analysable files, breaker threshold 5.
Sub-call 0 fails with token throttling; the delay inserted before sub-call 1
is the extended throttling delay `min(10 + 5*1, 30) = 15` seconds, not the
claimed progressive delay `2.0 * min(1 + 0.1*0, 3.0) = 2` seconds.  (And had
the failure been a non-throttling error, no delay at all would have been
inserted.) -/
theorem C6_counterexample :
    individualFileDelays
        (fun i => if i = 0 then FileOutcome.error "ThrottlingException: too many tokens used"
                  else FileOutcome.result "done")
        [⟨some "a.py", some "@@ diff"⟩, ⟨some "b.py", some "@@ diff"⟩] 5 =
      [(0, 15)] ∧
    (15 : ℚ) ≠ 2 * min (1 + (0 : ℚ) * (1 / 10)) 3 := by
  constructor
  · have h1 : isTokenThrottlingMsg "ThrottlingException: too many tokens used" = true := by
      decide
    have h2 : (pyTruthy (some "a.py") && pyTruthy (some "@@ diff")) = true := by decide
    have h3 : (pyTruthy (some "b.py") && pyTruthy (some "@@ diff")) = true := by decide
    simp only [individualFileDelays, analyzeLoopDelays, h1, h2, h3]
    norm_num [min_def, h1, h2, h3]
  · norm_num [min_def]

/-- Claim C6, amended: the progressive delay `2.0 * min(1 + 0.1*index, 3.0)`
is inserted between consecutive sub-calls only after a sub-call whose
analysis completed without raising (successfully analysed or empty result);
after a token-throttling failure the extended delay `min(10 + 5*failures,
30)` is inserted instead, and after any other failure no delay is inserted
(the stated hypotheses: the breaker has not tripped, the file has a filename
and a patch, and it is not the last file). -/
theorem C6_progressive_delay_only_after_success (oracle : ℕ → FileOutcome)
    (maxtf index tfc : ℕ) (f : FileInfo) (rest : List FileInfo)
    (hactive : tfc < maxtf) (hfile : (pyTruthy f.filename && pyTruthy f.patch) = true)
    (hrest : rest ≠ []) :
    (∀ text, oracle index = .result text →
      analyzeLoopDelays oracle maxtf index tfc (f :: rest) =
        (index, 2 * min (1 + (index : ℚ) * (1 / 10)) 3) ::
          analyzeLoopDelays oracle maxtf (index + 1) 0 rest) ∧
    (∀ message, oracle index = .error message → isTokenThrottlingMsg message = true →
      analyzeLoopDelays oracle maxtf index tfc (f :: rest) =
        (index, min (10 + ((tfc + 1 : ℕ) : ℚ) * 5) 30) ::
          analyzeLoopDelays oracle maxtf (index + 1) (tfc + 1) rest) ∧
    (∀ message, oracle index = .error message → isTokenThrottlingMsg message = false →
      analyzeLoopDelays oracle maxtf index tfc (f :: rest) =
        analyzeLoopDelays oracle maxtf (index + 1) tfc rest) := by
  refine ⟨?_, ?_, ?_⟩
  · intro text h
    rw [analyzeLoopDelays, if_neg (not_le.mpr hactive), if_pos hfile, h]
    dsimp only
    rw [if_pos hrest]
  · intro message h ht
    rw [analyzeLoopDelays, if_neg (not_le.mpr hactive), if_pos hfile, h]
    dsimp only
    rw [if_pos ht, if_pos hrest]
  · intro message h ht
    rw [analyzeLoopDelays, if_neg (not_le.mpr hactive), if_pos hfile, h]
    dsimp only
    rw [if_neg (by simp [ht])]

/-- Witness for the amended C6: a successful first sub-call of a two-file
batch gets the progressive delay. -/
theorem C6_progressive_delay_only_after_success_witness :
    analyzeLoopDelays (fun _ => FileOutcome.result "done") 1 0 0
        [⟨some "a.py", some "@@ diff"⟩, ⟨some "b.py", some "@@ diff"⟩] =
      (0, 2 * min (1 + ((0 : ℕ) : ℚ) * (1 / 10)) 3) ::
        analyzeLoopDelays (fun _ => FileOutcome.result "done") 1 1 0
          [⟨some "b.py", some "@@ diff"⟩] :=
  (C6_progressive_delay_only_after_success (fun _ => FileOutcome.result "done") 1 0 0
      ⟨some "a.py", some "@@ diff"⟩ [⟨some "b.py", some "@@ diff"⟩]
      (by decide) (by decide) (by decide)).1 "done" rfl

end PRReviewer
